import Mathlib

/-!
Verification development for the terminal-api-for-qcli repository.

The Python source is embedded shallowly: each regex substitution pass of the
output cleaners is translated into a recursive function on `List Char`, the
chunk classifier into pure functions threading the classifier's
`last_message_type` state, and the command executor's polling wait loop into a
fuel-indexed step function over discrete one-second time.

Conventions used throughout:
* Python `re.sub` is modelled by `subAll`: scan left to right, at each
  position ask a matcher for the number of characters consumed (the matcher
  returns `some k` meaning `k + 1` characters are consumed, so matches are
  always non-empty), replace and resume after the match.
* Python's whitespace class (`\s`, `str.strip`) is modelled by `pyWs`,
  covering the ASCII whitespace characters that can actually survive the
  cleaning passes (the wider Unicode space category is not reachable in the
  fixtures and claims treated here).
-/

namespace Qterm

/-- The ESC character, 0x1B. -/
def escChar : Char := Char.ofNat 27

/-- The BEL character, 0x07, terminator of OSC sequences. -/
def belChar : Char := Char.ofNat 7

/-- Opening curly brace character. -/
def lbraceChar : Char := Char.ofNat 123

/-- Closing curly brace character. -/
def rbraceChar : Char := Char.ofNat 125

/-- Python whitespace (`\s`, `str.strip`) restricted to the ASCII range. -/
def pyWs (c : Char) : Bool :=
  c = ' ' || c = '\t' || c = '\n' || c = '\r' || c = Char.ofNat 11 || c = Char.ofNat 12

/-- Fuel-indexed worker for `subAll`; every match consumes at least one
character, so fuel equal to the list length suffices and the recursion is
structural (and therefore computes in the kernel). -/
def subAllFuel (m : List Char → Option Nat) (repl : List Char) :
    Nat → List Char → List Char
  | 0, s => s
  | _ + 1, [] => []
  | fuel + 1, c :: rest =>
    match m (c :: rest) with
    | some k => repl ++ subAllFuel m repl fuel (rest.drop k)
    | none => c :: subAllFuel m repl fuel rest

/-- Left-to-right single-pass substitution: the matcher returns `some k` when
`k + 1` characters starting at the current position match; they are replaced by
`repl` and scanning resumes after them, exactly like Python `re.sub` for the
patterns used by the source (none of which can match the empty string). -/
def subAll (m : List Char → Option Nat) (repl : List Char) (s : List Char) :
    List Char :=
  subAllFuel m repl s.length s

/-- Matcher for the OSC pattern `\x1B\][^\x07]*\x07`. -/
def matchOsc : List Char → Option Nat
  | c1 :: c2 :: rest =>
    if c1 = escChar ∧ c2 = ']' then
      match rest.findIdx? (· = belChar) with
      | some i => some (i + 2)
      | none => none
    else none
  | _ => none

/-- Final byte of the two-character escape alternative `[@-Z\\-_]`
(0x40–0x5A or 0x5C–0x5F). -/
def isAnsiSingleFinal (c : Char) : Bool :=
  (64 ≤ c.toNat && c.toNat ≤ 90) || (92 ≤ c.toNat && c.toNat ≤ 95)

/-- CSI parameter byte `[0-?]` (0x30–0x3F). -/
def isCsiParam (c : Char) : Bool := 48 ≤ c.toNat && c.toNat ≤ 63

/-- CSI intermediate byte (0x20–0x2F). -/
def isCsiInter (c : Char) : Bool := 32 ≤ c.toNat && c.toNat ≤ 47

/-- CSI final byte `[@-~]` (0x40–0x7E). -/
def isCsiFinal (c : Char) : Bool := 64 ≤ c.toNat && c.toNat ≤ 126

/-- Matcher for the ANSI escape pattern shared by all three cleaners: ESC
followed either by a single byte in 0x40–0x5A or 0x5C–0x5F, or by a CSI body
(parameter bytes, then intermediate bytes, then one final byte). -/
def matchAnsi : List Char → Option Nat
  | c1 :: c2 :: rest =>
    if c1 = escChar then
      if isAnsiSingleFinal c2 then some 1
      else if c2 = '[' then
        let ps := rest.takeWhile isCsiParam
        let rest2 := rest.drop ps.length
        let is := rest2.takeWhile isCsiInter
        match rest2.drop is.length with
        | f :: _ => if isCsiFinal f then some (ps.length + is.length + 2) else none
        | [] => none
      else none
    else none
  | _ => none

/-- Matcher for `\r+` (a maximal run of carriage returns). -/
def matchCrRun : List Char → Option Nat
  | c :: rest =>
    if c = '\r' then some (rest.takeWhile (· = '\r')).length else none
  | [] => none

/-- Membership in the control-character class
`[\x00-\x08\x0B\x0C\x0E-\x1F\x7F-\x9F]`. -/
def isCtrlChar (c : Char) : Bool :=
  c.toNat ≤ 8 || c.toNat = 11 || c.toNat = 12 ||
  (14 ≤ c.toNat && c.toNat ≤ 31) || (127 ≤ c.toNat && c.toNat ≤ 159)

/-- Matcher deleting one control character. -/
def matchCtrl : List Char → Option Nat
  | c :: _ => if isCtrlChar c then some 0 else none
  | [] => none

/-- Matcher for ` {3,}`: a maximal run of at least three spaces. -/
def matchSpaces3 : List Char → Option Nat
  | c :: rest =>
    if c = ' ' then
      let n := 1 + (rest.takeWhile (· = ' ')).length
      if 3 ≤ n then some (n - 1) else none
    else none
  | [] => none

/-- Matcher for `\n{3,}`: a maximal run of at least three newlines. -/
def matchNewlines3 : List Char → Option Nat
  | c :: rest =>
    if c = '\n' then
      let n := 1 + (rest.takeWhile (· = '\n')).length
      if 3 ≤ n then some (n - 1) else none
    else none
  | [] => none

/-- Matcher for the generic cleaner's prompt-residue pattern
`ubuntu@[^:]*:[^$]*\$\s*`. -/
def matchUbuntuPrompt (s : List Char) : Option Nat :=
  if ("ubuntu@".data).isPrefixOf s then
    let r1 := s.drop 7
    let a := r1.takeWhile (· ≠ ':')
    match r1.drop a.length with
    | _ :: r2 =>
      let b := r2.takeWhile (· ≠ '$')
      match r2.drop b.length with
      | _ :: r3 =>
        let w := r3.takeWhile pyWs
        some (8 + a.length + b.length + w.length)
      | [] => none
    | [] => none
  else none

/-- Python `str.strip()` over `pyWs`. -/
def pyStrip (l : List Char) : List Char :=
  ((l.dropWhile pyWs).reverse.dropWhile pyWs).reverse

/-- Python `str.rstrip()` over `pyWs`. -/
def pyRStrip (l : List Char) : List Char :=
  (l.reverse.dropWhile pyWs).reverse

/-- The Q CLI cleaner's trailing-prompt pass `re.sub(r'>\s*$', '', text)`:
the leftmost `>` whose entire suffix is whitespace is removed together with
that suffix. -/
def removeTrailingGt : List Char → List Char
  | [] => []
  | c :: rest =>
    if c = '>' && rest.all pyWs then [] else c :: removeTrailingGt rest

/-- `QcliOutputFormatter.clean_qcli_output`: OSC removal, ANSI removal,
carriage returns, control characters, trailing `>` prompt residue, whitespace
collapsing, and a final `strip()`. -/
def cleanQcliList (s : List Char) : List Char :=
  if s = [] then []
  else
    let t1 := subAll matchOsc [] s
    let t2 := subAll matchAnsi [] t1
    let t3 := subAll matchCrRun [] t2
    let t4 := subAll matchCtrl [] t3
    let t5 := removeTrailingGt t4
    let t6 := subAll matchSpaces3 [' '] t5
    let t7 := subAll matchNewlines3 ['\n', '\n'] t6
    pyStrip t7

/-- `TerminalOutputFormatter.clean_terminal_output` (generic cleaner): same
passes but with the `ubuntu@...:...$` prompt-residue pass instead of the
trailing `>` pass, and no final `strip()`. -/
def cleanTerminalList (s : List Char) : List Char :=
  if s = [] then []
  else
    let t1 := subAll matchOsc [] s
    let t2 := subAll matchAnsi [] t1
    let t3 := subAll matchCrRun [] t2
    let t4 := subAll matchCtrl [] t3
    let t5 := subAll matchUbuntuPrompt [] t4
    let t6 := subAll matchSpaces3 [' '] t5
    subAll matchNewlines3 ['\n', '\n'] t6

/-- `ANSICleaner.clean` (websocket client): ANSI removal first, then OSC, then
control characters, then `strip()`; empty input is returned unchanged. -/
def ansiCleanerCleanList (s : List Char) : List Char :=
  if s = [] then s
  else
    let t1 := subAll matchAnsi [] s
    let t2 := subAll matchOsc [] t1
    let t3 := subAll matchCtrl [] t2
    pyStrip t3

/-- String wrapper for `cleanQcliList`. -/
def cleanQcliOutput (s : String) : String := ⟨cleanQcliList s.data⟩

/-- String wrapper for `cleanTerminalList`. -/
def cleanTerminalOutput (s : String) : String := ⟨cleanTerminalList s.data⟩

/-- String wrapper for `ansiCleanerCleanList`. -/
def ansiCleanerClean (s : String) : String := ⟨ansiCleanerCleanList s.data⟩

/-! ### Chunk classifier (`QcliOutputFormatter.detect_message_type` and
`OutputProcessor`) -/

/-- `QCLIResponseType` from `qcli_formatter.py`. -/
inductive QCLIResponseType
  | thinking
  | toolUse
  | streaming
  | complete
deriving DecidableEq, Repr

/-- The Braille spinner glyph class of the effective `thinking_pattern`
(the second assignment in `QcliOutputFormatter.__init__`, which overwrites the
first, bare-glyph pattern). -/
def isSpinnerGlyph (c : Char) : Bool :=
  c = '⠙' || c = '⠹' || c = '⠸' || c = '⠼' || c = '⠴' ||
  c = '⠦' || c = '⠧' || c = '⠇' || c = '⠏' || c = '⠋'

/-- ASCII lowercasing, modelling `re.IGNORECASE` for the patterns used here. -/
def toLowerA (c : Char) : Char :=
  if 65 ≤ c.toNat && c.toNat ≤ 90 then Char.ofNat (c.toNat + 32) else c

/-- Case-insensitive prefix test (pattern literal given in lowercase). -/
def isPrefixOfCI (pat s : List Char) : Bool :=
  pat.isPrefixOf (s.map toLowerA)

/-- Does some suffix of the list satisfy `p`?  This is `re.search` for a
pattern whose match at a position is decided by `p` on the suffix starting
there. -/
def existsSuffix (p : List Char → Bool) : List Char → Bool
  | [] => false
  | c :: rest => p (c :: rest) || existsSuffix p rest

/-- Substring test: does `pat` occur contiguously in the list? -/
def containsSub (pat : List Char) : List Char → Bool
  | [] => pat.isEmpty
  | c :: rest => pat.isPrefixOf (c :: rest) || containsSub pat rest

/-- Match of the effective thinking pattern (a spinner glyph, then optional
whitespace, then the literal text) at the head of the list. -/
def thinkingAt (s : List Char) : Bool :=
  match s with
  | c :: rest => isSpinnerGlyph c && ("Thinking...".data).isPrefixOf (rest.dropWhile pyWs)
  | [] => false

/-- `thinking_pattern.search`: the effective compiled pattern requires the
spinner glyph to be followed by optional whitespace and `Thinking...`. -/
def thinkingSearch (s : List Char) : Bool := existsSuffix thinkingAt s

/-- U+1F6E0, the wrench emoji base character of `tool_use_pattern`. -/
def wrenchChar : Char := Char.ofNat 0x1F6E0

/-- U+FE0F, the variation selector following the wrench in `tool_use_pattern`. -/
def vs16Char : Char := Char.ofNat 0xFE0F

/-- Match of `tool_use_pattern` (wrench emoji, at least one whitespace
character, then `Using tool:` case-insensitively) at the head of the list. -/
def toolUseAt (s : List Char) : Bool :=
  match s with
  | c1 :: c2 :: rest =>
    c1 = wrenchChar && c2 = vs16Char &&
      (let w := rest.takeWhile pyWs
       1 ≤ w.length && isPrefixOfCI ("using tool:".data) (rest.drop w.length))
  | _ => false

/-- `tool_use_pattern.search`. -/
def toolUseSearch (s : List Char) : Bool := existsSuffix toolUseAt s

/-- `QcliOutputFormatter._has_control_chars`. -/
def hasControlChars (s : List Char) : Bool :=
  s.any (fun c => c = '>' || c = '\\' || c = '[' || c = ']' || c = '█' || isSpinnerGlyph c)

/-- ASCII digit test, modelling `\d` for the inputs reachable here. -/
def isDigitA (c : Char) : Bool := 48 ≤ c.toNat && c.toNat ≤ 57

/-- The anchored pattern of the pure-digits/whitespace exclusion in
`_is_streaming_content`: every character is a digit, whitespace, `-`, `_`
or `=` (and the string is non-empty). -/
def allDigitish (s : List Char) : Bool :=
  !s.isEmpty && s.all (fun c => isDigitA c || pyWs c || c = '-' || c = '_' || c = '=')

/-- Case-insensitive substring test (pattern literal given in lowercase). -/
def containsCI (pat s : List Char) : Bool :=
  containsSub pat (s.map toLowerA)

/-- The banner/initialization-noise exclusion in `_is_streaming_content`. -/
def initNoiseSearch (s : List Char) : Bool :=
  containsCI ("mcp server initialized".data) s ||
  containsCI ("mcp servers initialized".data) s ||
  containsCI ("ctrl-c".data) s ||
  containsCI ("did you know".data) s

/-- `QcliOutputFormatter._is_streaming_content`. -/
def isStreamingContent (cleaned : List Char) : Bool :=
  !cleaned.isEmpty && 2 ≤ (pyStrip cleaned).length &&
  !hasControlChars cleaned && !allDigitish cleaned && !initNoiseSearch cleaned

/-- Match of `"name":\s*"[^"]*"` at the head of the list. -/
def nameFieldAt (s : List Char) : Bool :=
  ("\"name\":".data).isPrefixOf s &&
    (match (s.drop 7).dropWhile pyWs with
     | c :: r2 => c = '"' && (r2.dropWhile (· ≠ '"') ≠ [])
     | [] => false)

/-- Match of `"arguments":\s*` followed by an opening brace at the head of
the list. -/
def argsFieldAt (s : List Char) : Bool :=
  ("\"arguments\":".data).isPrefixOf s &&
    (match (s.drop 12).dropWhile pyWs with
     | c :: _ => c = lbraceChar
     | [] => false)

/-- The suffix strictly after the first occurrence of `pat`, if any. -/
def afterFirst (pat : List Char) : List Char → Option (List Char)
  | [] => if pat = [] then some [] else none
  | c :: rest =>
    if pat.isPrefixOf (c :: rest) then some ((c :: rest).drop pat.length)
    else afterFirst pat rest

/-- Match, at the head of the list, of a braced segment containing a quoted
`name` key followed by a quoted `arguments` key before the closing brace. -/
def jsonObjAt (s : List Char) : Bool :=
  match s with
  | c :: rest =>
    c = lbraceChar &&
      (let seg := rest.takeWhile (· ≠ rbraceChar)
       !(rest.drop seg.length).isEmpty &&
         (match afterFirst ("\"name\"".data) seg with
          | some tail => containsSub ("\"arguments\"".data) tail
          | none => false))
  | [] => false

/-- `QcliOutputFormatter._has_tool_json_format`. -/
def hasToolJsonFormat (cleaned : List Char) : Bool :=
  existsSuffix jsonObjAt cleaned ||
  existsSuffix nameFieldAt cleaned ||
  existsSuffix argsFieldAt cleaned ||
  containsSub ("```json".data) cleaned

/-- `QcliOutputFormatter.detect_message_type`, with the formatter's mutable
`last_message_type` passed explicitly; the returned value is also the new
`last_message_type` (every branch that returns a different value assigns it
first). -/
def detectMessageType (raw : List Char) (last : QCLIResponseType) : QCLIResponseType :=
  if raw = [] then last
  else
    let cleaned := cleanQcliList raw
    if thinkingSearch cleaned then .thinking
    else if toolUseSearch cleaned then .toolUse
    else if isStreamingContent cleaned then .streaming
    else if hasToolJsonFormat cleaned then .toolUse
    else if last = .streaming && isStreamingContent cleaned then .streaming
    else last

/-- `ChunkType` of the unified data-flow architecture.  Modelled from the
spec: the module `api/data_structures.py` is absent from the source tree
(only its importers and its test file remain), and the spec fixes the closed
kind set Thinking, ToolUse, Content, Complete, Error. -/
inductive ChunkType
  | thinking
  | toolUse
  | content
  | complete
  | error
deriving DecidableEq, Repr

/-- `OutputProcessor._map_qcli_type_to_chunk_type`. -/
def mapQcliTypeToChunkType : QCLIResponseType → ChunkType
  | .thinking => .thinking
  | .toolUse => .toolUse
  | .streaming => .content
  | .complete => .complete

/-- Chunk metadata.  Modelled from the spec: `api/data_structures.py` is
absent from the source tree; the spec describes metadata as an open key/value
map carrying raw length, cleaned length, tool name, error message, and the
test file pins the key names produced by `MetadataBuilder`.  Unused keys are
`none`/default. -/
structure Metadata where
  rawLength : Nat := 0
  contentLength : Option Nat := none
  terminalType : String := ""
  toolName : Option String := none
  errorMessage : Option String := none
  errorType : Option String := none
  qcliMessageType : Option String := none
deriving DecidableEq, Repr

/-- `MetadataBuilder.for_content`.  Modelled from the spec (missing
`api/data_structures.py`), key names pinned by `test_data_structures.py`. -/
def MetadataBuilder.forContent (rawLen contentLen : Nat) (tt : String) : Metadata :=
  { rawLength := rawLen, contentLength := some contentLen, terminalType := tt }

/-- `MetadataBuilder.for_tool_use`.  Modelled from the spec (missing
`api/data_structures.py`), key names pinned by `test_data_structures.py`. -/
def MetadataBuilder.forToolUse (tool : String) (rawLen : Nat) (tt : String) : Metadata :=
  { rawLength := rawLen, terminalType := tt, toolName := some tool }

/-- `MetadataBuilder.for_thinking`.  Modelled from the spec (missing
`api/data_structures.py`). -/
def MetadataBuilder.forThinking (rawLen : Nat) (tt : String) : Metadata :=
  { rawLength := rawLen, terminalType := tt }

/-- Metadata of the `COMPLETE` branch of
`OutputProcessor._build_qcli_metadata` (built inline in the source). -/
def completeMetadata (rawLen : Nat) (qt : String) : Metadata :=
  { rawLength := rawLen, terminalType := "qcli", qcliMessageType := some qt }

/-- `StreamChunk`.  Modelled from the spec (missing `api/data_structures.py`):
an immutable unit of output with content, kind and metadata; the wall-clock
`timestamp` field is dropped from the embedding. -/
structure StreamChunk where
  content : String
  type : ChunkType
  metadata : Metadata
deriving DecidableEq, Repr

/-- `.value` string of a `QCLIResponseType`. -/
def qcliTypeValue : QCLIResponseType → String
  | .thinking => "thinking"
  | .toolUse => "tool_use"
  | .streaming => "streaming"
  | .complete => "complete"

/-- An identifier head character `[a-zA-Z_]`. -/
def identStart (c : Char) : Bool :=
  (97 ≤ c.toNat && c.toNat ≤ 122) || (65 ≤ c.toNat && c.toNat ≤ 90) || c = '_'

/-- An identifier character `[a-zA-Z0-9_]`. -/
def identChar (c : Char) : Bool := identStart c || isDigitA c

/-- Try the tool-name pattern `<lit>\s*([a-zA-Z_][a-zA-Z0-9_]*)` at the head
of the list (literal given in lowercase, matched case-insensitively). -/
def toolPatAt (lit s : List Char) : Option (List Char) :=
  if isPrefixOfCI lit s then
    let r := (s.drop lit.length).dropWhile pyWs
    match r with
    | c :: _ => if identStart c then some (r.takeWhile identChar) else none
    | [] => none
  else none

/-- `re.search` for a tool-name pattern: scan left to right; at a position
where the literal matches but no identifier follows, the engine moves on. -/
def searchToolPat (lit : List Char) : List Char → Option (List Char)
  | [] => none
  | c :: rest =>
    match toolPatAt lit (c :: rest) with
    | some t => some t
    | none => searchToolPat lit rest

/-- Try the second extraction pattern (wrench emoji, optional whitespace,
`Using tool:`, optional whitespace, identifier) at the head of the list. -/
def wrenchToolPatAt (s : List Char) : Option (List Char) :=
  match s with
  | c1 :: c2 :: rest =>
    if c1 = wrenchChar && c2 = vs16Char then
      toolPatAt ("using tool:".data) (rest.dropWhile pyWs)
    else none
  | _ => none

/-- `re.search` for the second extraction pattern. -/
def searchWrenchToolPat : List Char → Option (List Char)
  | [] => none
  | c :: rest =>
    match wrenchToolPatAt (c :: rest) with
    | some t => some t
    | none => searchWrenchToolPat rest

/-- `OutputProcessor._extract_tool_name`: the three patterns are tried in
order on the cleaned message; if none extracts a name the result is the
sentinel `unknown_tool`. -/
def extractToolName (raw : List Char) : String :=
  let cleaned := cleanQcliList raw
  match searchToolPat ("using tool:".data) cleaned with
  | some t => ⟨t⟩
  | none =>
    match searchWrenchToolPat cleaned with
    | some t => ⟨t⟩
    | none =>
      match searchToolPat ("tool:".data) cleaned with
      | some t => ⟨t⟩
      | none => "unknown_tool"

/-- `OutputProcessor._build_qcli_metadata`. -/
def buildQcliMetadata (raw cleanContent : List Char) (ct : ChunkType)
    (qt : QCLIResponseType) : Metadata :=
  match ct with
  | .thinking => MetadataBuilder.forThinking raw.length "qcli"
  | .toolUse => MetadataBuilder.forToolUse (extractToolName raw) raw.length "qcli"
  | .content => MetadataBuilder.forContent raw.length cleanContent.length "qcli"
  | .complete => completeMetadata raw.length (qcliTypeValue qt)
  | .error => { rawLength := raw.length, terminalType := "qcli" }

/-- `OutputProcessor._process_qcli_message`, threading the formatter's
`last_message_type`: status kinds carry no content; the content kind is
skipped entirely when the cleaned content is whitespace-only. -/
def processQcliMessage (raw : List Char) (last : QCLIResponseType) :
    Option StreamChunk × QCLIResponseType :=
  let qt := detectMessageType raw last
  let cleanContent := cleanQcliList raw
  let ct := mapQcliTypeToChunkType qt
  let contentRes : Option (List Char) :=
    if ct = .thinking ∨ ct = .toolUse ∨ ct = .complete then some []
    else if pyStrip cleanContent = [] then none
    else some cleanContent
  match contentRes with
  | none => (none, qt)
  | some content =>
    (some { content := ⟨content⟩, type := ct,
            metadata := buildQcliMetadata raw cleanContent ct qt }, qt)

/-- Replace the first occurrence of `pat` (non-empty) in `s` by `repl`,
modelling Python `str.replace(pat, repl, 1)`. -/
def replaceFirst (pat repl : List Char) : List Char → List Char
  | [] => []
  | c :: rest =>
    if pat.isPrefixOf (c :: rest) then repl ++ (c :: rest).drop pat.length
    else c :: replaceFirst pat repl rest

/-- Python `text.split('\n')`. -/
def splitNl : List Char → List (List Char)
  | [] => [[]]
  | c :: rest =>
    if c = '\n' then [] :: splitNl rest
    else
      match splitNl rest with
      | h :: t => (c :: h) :: t
      | [] => [[c]]

/-- `OutputProcessor._additional_cleanup`: drop whitespace-only lines,
right-strip the rest, rejoin, and strip the result. -/
def additionalCleanup (t : List Char) : List Char :=
  if t = [] then []
  else
    let kept := ((splitNl t).filter (fun l => pyStrip l ≠ [])).map pyRStrip
    pyStrip (List.intercalate ['\n'] kept)

/-- `OutputProcessor._clean_generic_content`, with the per-command entry of
`_echo_removed_for_command` passed and returned explicitly. -/
def cleanGenericContent (raw cmd : List Char) (echoRemoved : Bool) :
    List Char × Bool :=
  let cleaned := cleanTerminalList raw
  if cleaned = [] then ([], echoRemoved)
  else
    let step :=
      if cmd ≠ [] && !echoRemoved && containsSub cmd cleaned then
        (replaceFirst cmd [] cleaned, true)
      else (cleaned, echoRemoved)
    (additionalCleanup step.1, step.2)

/-- `OutputProcessor._process_generic_message`. -/
def processGenericMessage (raw cmd : List Char) (echoRemoved : Bool) :
    Option StreamChunk × Bool :=
  let res := cleanGenericContent raw cmd echoRemoved
  if pyStrip res.1 = [] then (none, res.2)
  else
    (some { content := ⟨res.1⟩, type := .content,
            metadata := MetadataBuilder.forContent raw.length res.1.length "generic" },
     res.2)

/-- `TerminalType` from the missing `api/data_structures.py`.  Modelled from
the spec: a terminal type tag selecting the Q CLI or generic ruleset. -/
inductive TerminalType
  | qcli
  | generic
deriving DecidableEq, Repr

/-- `OutputProcessor.process_raw_message`: empty messages yield no chunk;
otherwise the Q CLI or generic branch runs, each threading only its own
state. -/
def processRawMessage (raw cmd : List Char) (ty : TerminalType)
    (last : QCLIResponseType) (echoRemoved : Bool) :
    Option StreamChunk × QCLIResponseType × Bool :=
  if raw = [] then (none, last, echoRemoved)
  else
    match ty with
    | .qcli =>
      let r := processQcliMessage raw last
      (r.1, r.2, echoRemoved)
    | .generic =>
      let r := processGenericMessage raw cmd echoRemoved
      (r.1, last, r.2)

/-- String wrapper for `detectMessageType`. -/
def detectMessageTypeS (raw : String) (last : QCLIResponseType) : QCLIResponseType :=
  detectMessageType raw.data last

/-- String wrapper for `processQcliMessage`. -/
def processQcliMessageS (raw : String) (last : QCLIResponseType) :
    Option StreamChunk × QCLIResponseType :=
  processQcliMessage raw.data last

/-- String wrapper for `processRawMessage`. -/
def processRawMessageS (raw cmd : String) (ty : TerminalType)
    (last : QCLIResponseType) (echoRemoved : Bool) :
    Option StreamChunk × QCLIResponseType × Bool :=
  processRawMessage raw.data cmd.data ty last echoRemoved

/-! ### Command executor (`command_executor.py`)

Time is discrete, in whole seconds; the executor's one-second
`asyncio.wait_for` polling cycle is one step of `runLoop`.  A schedule maps
each second to the payload dispatched to `_handle_raw_message` during that
second (if any); payloads arriving within a polling interval are handled
before the poll fires, matching the event loop's wakeup order. -/

/-- `ExecutionConstants.QCLI_MAX_TIMEOUT`: the absolute hard ceiling, in
seconds, applied (only) by `_is_qcli_command_complete`. -/
def qcliMaxTimeout : Nat := 120

/-- The colored idle-prompt escape sequence of the Q CLI.  Modelled from the
spec: `QcliOutputFormatter.clean_and_detect_completion`, called by
`CommandExecutor._is_qcli_command_complete`, does not exist in the source
tree; the spec describes completion as "a specific sequence of colored-prompt
escape codes signaling the remote program has returned to its idle prompt",
and the prompt byte sequence is pinned by the comments and patterns of
`QcliOutputFormatter._has_prompt_in_raw`. -/
def qcliCompletionPrompt : List Char :=
  [escChar] ++ "[38;5;9m!".data ++ [escChar] ++ "[39m".data ++
  [escChar] ++ "[38;5;13m> ".data ++ [escChar] ++ "[39m".data

/-- Modelled from the spec: the missing
`QcliOutputFormatter.clean_and_detect_completion`'s completion verdict — the
raw payload contains the colored idle-prompt sequence. -/
def qcliDetectComplete (raw : List Char) : Bool :=
  containsSub qcliCompletionPrompt raw

/-- `CommandExecutor._is_qcli_command_complete`: prompt detection (modelled
from the spec, see `qcliDetectComplete`) or the 120-second hard ceiling on
the command's execution time. -/
def isQcliCommandComplete (raw : List Char) (execTime : Nat) : Bool :=
  qcliDetectComplete raw || decide (qcliMaxTimeout < execTime)

/-- The OSC 697 completion indicators of
`CommandExecutor._is_generic_command_complete`. -/
def genericCompletionIndicators : List (List Char) :=
  [[escChar] ++ "]697;NewCmd=".data,
   [escChar] ++ "]697;EndPrompt".data,
   [escChar] ++ "]697;StartPrompt".data]

/-- `CommandExecutor._is_generic_command_complete`: any OSC 697 indicator
occurs in the raw message.  There is no hard-ceiling check on this branch. -/
def isGenericCommandComplete (raw : List Char) : Bool :=
  genericCompletionIndicators.any (fun p => containsSub p raw)

/-- `CommandExecutor._is_command_complete`. -/
def isCommandComplete (ty : TerminalType) (raw : List Char) (execTime : Nat) : Bool :=
  if raw = [] then false
  else
    match ty with
    | .qcli => isQcliCommandComplete raw execTime
    | .generic => isGenericCommandComplete raw

/-- The mutable fields of `CommandExecution` relevant to completion and
timeout (the `asyncio.Event` becomes the boolean `completeEvent`). -/
structure ExecState where
  startTime : Nat
  lastMessageTime : Nat
  lastChunk : List Char
  completeEvent : Bool
  timeoutOccurred : Bool
deriving DecidableEq, Repr

/-- A fresh `CommandExecution` created at time 0: both timestamps are the
creation time. -/
def initExec : ExecState :=
  { startTime := 0, lastMessageTime := 0, lastChunk := [],
    completeEvent := false, timeoutOccurred := false }

/-- The activity/completion effect of `CommandExecutor._handle_raw_message`
at time `now`: empty messages are ignored; otherwise the activity timestamp
and last chunk are updated and the complete event is set if completion is
detected on the raw payload. -/
def handleRawActivity (ty : TerminalType) (st : ExecState) (raw : List Char)
    (now : Nat) : ExecState :=
  if raw = [] then st
  else
    { st with
      lastMessageTime := now
      lastChunk := raw
      completeEvent := st.completeEvent || isCommandComplete ty raw (now - st.startTime) }

/-- Outcome of the executor's wait loop: either the loop has exited (with the
final execution state and the exit time) or it is still running when the fuel
runs out. -/
inductive RunOutcome
  | finished (st : ExecState) (endTime : Nat)
  | stillRunning (st : ExecState)
deriving DecidableEq, Repr

/-- Is the outcome still running (loop did not exit within the horizon)? -/
def RunOutcome.isStillRunning : RunOutcome → Bool
  | .stillRunning _ => true
  | .finished _ _ => false

/-- Delivery of the payload scheduled for second `t` (if any) to
`_handle_raw_message`. -/
def stepState (ty : TerminalType) (sched : Nat → Option (List Char))
    (t : Nat) (st : ExecState) : ExecState :=
  match sched t with
  | some raw => handleRawActivity ty st raw t
  | none => st

/-- The wait loop of `CommandExecutor.execute_command`: each second, payloads
delivered during that second are handled first; then, if the complete event
is set the loop exits normally, otherwise if the silence duration strictly
exceeds `silenceT` the loop exits with `timeout_occurred` set, otherwise it
polls again one second later. -/
def runLoop (ty : TerminalType) (sched : Nat → Option (List Char))
    (silenceT : Nat) : Nat → Nat → ExecState → RunOutcome
  | 0, _, st => .stillRunning st
  | fuel + 1, t, st =>
    let st1 := stepState ty sched t st
    if st1.completeEvent then .finished st1 t
    else if silenceT < t - st1.lastMessageTime then
      .finished { st1 with timeoutOccurred := true } t
    else runLoop ty sched silenceT fuel (t + 1) st1

/-- `CommandResult` from `command_executor.py` (execution time in whole
seconds, error message reduced to a fixed marker). -/
structure CommandResult where
  command : String
  success : Bool
  executionTime : Nat
  error : Option String
deriving DecidableEq, Repr

/-- `CommandExecutor._create_command_result`: success is exactly the absence
of the silence-timeout flag, and the execution time is the elapsed time since
the command started. -/
def createCommandResult (cmd : String) (st : ExecState) (now : Nat) : CommandResult :=
  { command := cmd
    success := !st.timeoutOccurred
    executionTime := now - st.startTime
    error := if st.timeoutOccurred then some "silence timeout" else none }

/-- The latest time `s ≤ t` at which a non-empty payload was delivered, or 0
(the command start, which also initializes the activity timestamp). -/
def lastArrival (sched : Nat → Option (List Char)) : Nat → Nat
  | 0 => 0
  | t + 1 =>
    match sched (t + 1) with
    | some raw => if raw = [] then lastArrival sched t else t + 1
    | none => lastArrival sched t

/-- Has any payload delivered at a time `s ≤ t` signalled completion (for a
command started at time 0)? -/
def completionBy (ty : TerminalType) (sched : Nat → Option (List Char)) : Nat → Bool
  | 0 => false
  | t + 1 =>
    completionBy ty sched t ||
      (match sched (t + 1) with
       | some raw => isCommandComplete ty raw (t + 1)
       | none => false)

/-- A fixed heartbeat payload that matches no completion pattern. -/
def tickChunk : List Char := ['t', 'i', 'c', 'k']

/-- The schedule delivering one non-completing payload every second. -/
def tickSched : Nat → Option (List Char) := fun _ => some tickChunk

/-! ### Session façade (`terminal_api_client.py`) -/

/-- `TerminalBusinessState`. -/
inductive TerminalBusinessState
  | initializing
  | idle
  | busy
  | error
  | unavailable
deriving DecidableEq, Repr

/-- `TerminalAPIClient.can_execute_command`: connected and idle. -/
def canExecuteCommand (isConnected : Bool) (st : TerminalBusinessState) : Bool :=
  isConnected && st = TerminalBusinessState.idle

/-- One dictionary chunk yielded by `execute_command_stream` (metadata
reduced to the `error` and `final` keys the façade writes). -/
structure OutChunk where
  content : String
  state : String
  isContent : Bool
  errorMsg : Option String
  final : Bool
deriving DecidableEq, Repr

/-- The observable effect of entering `execute_command_stream`: chunks
yielded before any streaming, the business state after the guard, the
executor's in-flight `CommandExecution` (untouched by the façade guard), what
was sent to the connection, and whether execution proceeds past the guard. -/
structure StreamStart where
  yielded : List OutChunk
  newState : TerminalBusinessState
  inflight : Option String
  sentToConnection : List String
  proceeds : Bool
deriving DecidableEq, Repr

/-- The guard prefix of `TerminalAPIClient.execute_command_stream`: when
`can_execute_command` is false the generator yields a single error chunk and
returns — no state transition, no send, no touch of the in-flight
execution; otherwise the state becomes `BUSY` and streaming proceeds. -/
def executeCommandStreamStart (isConnected : Bool) (st : TerminalBusinessState)
    (inflight : Option String) : StreamStart :=
  if !canExecuteCommand isConnected st then
    { yielded := [{ content := "", state := "error", isContent := false,
                    errorMsg := some "cannot execute command", final := false }]
      newState := st
      inflight := inflight
      sentToConnection := []
      proceeds := false }
  else
    { yielded := []
      newState := .busy
      inflight := inflight
      sentToConnection := []
      proceeds := true }

/-! ### Attribute surface of the façade's collaborators
(`connection_manager.py`, `websocket_client.py`, `qcli_formatter.py`,
`output_processor.py`)

These lists transcribe, name by name, the attributes each class or module
actually defines in the source and the attributes its callers reference;
they embed Python attribute/keyword resolution for the fault claims. -/

/-- Methods, properties and instance attributes defined by
`ConnectionManager` in `connection_manager.py`. -/
def connectionManagerAttributes : List String :=
  ["host", "port", "username", "password", "use_ssl", "terminal_type",
   "silence_time", "_connection_state", "_client", "_user_message_handler",
   "_error_handler", "state", "_set_connection_state",
   "_handle_protocol_state_change", "is_connected", "set_message_handler",
   "set_error_handler", "_handle_protocol_error", "connect", "disconnect",
   "send_input", "send_command", "resize_terminal", "get_connection_info"]

/-- `ConnectionManager` attributes referenced by `TerminalAPIClient.__init__`
(lines 95 and 98). -/
def apiClientInitConnectionManagerCalls : List String :=
  ["set_error_handler", "set_state_change_callback"]

/-- `ConnectionManager` attributes referenced by `TerminalAPIClient`'s
`initialize` path (connect, the initialization drain, and the routing
switch). -/
def apiClientInitializeConnectionManagerCalls : List String :=
  ["is_connected", "connect", "add_temp_listener", "remove_temp_listener",
   "set_primary_handler"]

/-- Module-level names defined by `websocket_client.py`. -/
def websocketClientModuleNames : List String :=
  ["ConnectionState", "TtydMessage", "ANSICleaner", "TtydWebSocketClient"]

/-- Names `connection_manager.py` imports from `.websocket_client`
(line 12). -/
def connectionManagerWebsocketImports : List String :=
  ["TtydWebSocketClient", "TtydProtocolState"]

/-- Methods defined by `QcliOutputFormatter` in `qcli_formatter.py`. -/
def qcliFormatterMethods : List String :=
  ["__init__", "clean_qcli_output", "detect_message_type",
   "_has_prompt_in_raw", "_has_control_chars", "_is_streaming_content",
   "_has_tool_json_format", "process_qcli_chunk"]

/-- `QcliOutputFormatter` attribute referenced by
`CommandExecutor._is_qcli_command_complete` (line 162). -/
def commandExecutorQcliFormatterCalls : List String :=
  ["clean_and_detect_completion"]

/-- Keyword parameters accepted by `OutputProcessor.__init__`. -/
def outputProcessorInitParams : List String :=
  ["terminal_type"]

/-- Keyword arguments `TerminalAPIClient.__init__` passes to
`OutputProcessor` (lines 79–82). -/
def apiClientOutputProcessorKwargs : List String :=
  ["terminal_type", "enable_formatting"]

/-- Fixture inputs, taken from the repository's own cleaner and formatter
tests (spinner-only frames, colored banner lines, edge cases) together with
the concrete payloads of the spec's scenarios. -/
def cleanerFixtureInputs : List String :=
  ["\x1b7\x1b[1G\x1b[1A⠦\x1b8", "⠦⠧⠇⠏⠋⠙⠹⠸⠼⠴", "Loading ⠦ please wait",
   "\x1b[38;5;10m✓ \x1b[38;5;12mexa_search\x1b[0m loaded",
   "\x1b[1mWelcome to \x1b[96mAmazon Q\x1b[39m!\x1b[22m",
   "\x1b[92mctrl + j\x1b[90m new lines", "Hello World", "", "   ", "\n\n\n",
   "a\x1b[1mb\x1b[0mc", "pwd\r\n", "/tmp/x\r\n", "🛠️  Using tool: web_search_exa",
   "⠋ Thinking...", "78"]

/-! ### Helper lemmas -/

lemma dropWhile_eq_nil_iff_all {p : Char → Bool} :
    ∀ l : List Char, l.dropWhile p = [] ↔ ∀ c ∈ l, p c = true := by
  intro l
  induction l with
  | nil => simp
  | cons c rest ih =>
    by_cases h : p c
    · simp [List.dropWhile_cons, h, ih]
    · simp [List.dropWhile_cons, h]

lemma pyStrip_eq_nil_iff (l : List Char) :
    pyStrip l = [] ↔ ∀ c ∈ l, pyWs c = true := by
  unfold pyStrip
  rw [List.reverse_eq_nil_iff, dropWhile_eq_nil_iff_all]
  simp only [List.mem_reverse]
  constructor
  · intro h c hc
    have hsplit : List.takeWhile pyWs l ++ List.dropWhile pyWs l = l :=
      List.takeWhile_append_dropWhile pyWs l
    rw [← hsplit] at hc
    rcases List.mem_append.mp hc with h1 | h2
    · exact List.mem_takeWhile_imp h1
    · exact h c h2
  · intro h c hc
    exact h c ((List.dropWhile_sublist pyWs).subset hc)

lemma completionBy_mono {ty : TerminalType} {sched : Nat → Option (List Char)}
    (s : Nat) : ∀ t, s ≤ t → completionBy ty sched s = true →
    completionBy ty sched t = true := by
  intro t
  induction t with
  | zero =>
    intro hst h
    have hs : s = 0 := by omega
    exact hs ▸ h
  | succ t ih =>
    intro hst h
    by_cases hc : s = t + 1
    · exact hc ▸ h
    · have hb := ih (by omega) h
      simp [completionBy, hb]

lemma stepState_startTime (ty : TerminalType) (sched : Nat → Option (List Char))
    (t : Nat) (st : ExecState) :
    (stepState ty sched t st).startTime = st.startTime := by
  unfold stepState handleRawActivity
  cases sched t with
  | none => rfl
  | some raw =>
    by_cases h : raw = [] <;> simp [h]

lemma stepState_timeoutOccurred (ty : TerminalType)
    (sched : Nat → Option (List Char)) (t : Nat) (st : ExecState) :
    (stepState ty sched t st).timeoutOccurred = st.timeoutOccurred := by
  unfold stepState handleRawActivity
  cases sched t with
  | none => rfl
  | some raw =>
    by_cases h : raw = [] <;> simp [h]

lemma stepState_lastMessageTime (ty : TerminalType)
    (sched : Nat → Option (List Char)) (u : Nat) (st : ExecState)
    (hl : st.lastMessageTime = lastArrival sched u) :
    (stepState ty sched (u + 1) st).lastMessageTime = lastArrival sched (u + 1) := by
  unfold stepState handleRawActivity lastArrival
  cases sched (u + 1) with
  | none => exact hl
  | some raw =>
    by_cases h : raw = [] <;> simp [h, hl]

lemma stepState_completeEvent (ty : TerminalType)
    (sched : Nat → Option (List Char)) (u : Nat) (st : ExecState)
    (h0 : st.startTime = 0) (hc : st.completeEvent = completionBy ty sched u) :
    (stepState ty sched (u + 1) st).completeEvent = completionBy ty sched (u + 1) := by
  unfold stepState handleRawActivity
  rw [show completionBy ty sched (u + 1) =
      (completionBy ty sched u ||
        match sched (u + 1) with
        | some raw => isCommandComplete ty raw (u + 1)
        | none => false) from rfl]
  cases sched (u + 1) with
  | none => simpa using hc
  | some raw =>
    by_cases h : raw = []
    · simp [h, hc, isCommandComplete]
    · simp [h, hc, h0]

/-- Loop invariant transported through the wait loop: the run exits via the
silence-timeout branch iff at some poll instant within the horizon the
wall-clock gap since the last (non-empty) payload strictly exceeds the
silence timeout while no completion has been signalled yet. -/
lemma runLoop_timeout_iff_aux (ty : TerminalType)
    (sched : Nat → Option (List Char)) (T : Nat) :
    ∀ (fuel u : Nat) (st : ExecState),
    st.startTime = 0 → st.timeoutOccurred = false →
    st.lastMessageTime = lastArrival sched u →
    st.completeEvent = completionBy ty sched u →
    ((∃ st' e, runLoop ty sched T fuel (u + 1) st = .finished st' e ∧
        st'.timeoutOccurred = true) ↔
      ∃ t, u + 1 ≤ t ∧ t ≤ u + fuel ∧ completionBy ty sched t = false ∧
        T < t - lastArrival sched t) := by
  intro fuel
  induction fuel with
  | zero =>
    intro u st _ _ _ _
    constructor
    · rintro ⟨st', e, hrun, _⟩
      simp [runLoop] at hrun
    · rintro ⟨t, h1, h2, _, _⟩
      omega
  | succ fuel ih =>
    intro u st h0 ht hl hc
    have s0 := stepState_startTime ty sched (u + 1) st
    have st0 := stepState_timeoutOccurred ty sched (u + 1) st
    have sl := stepState_lastMessageTime ty sched u st hl
    have sc := stepState_completeEvent ty sched u st h0 hc
    rw [show runLoop ty sched T (fuel + 1) (u + 1) st =
        (let st1 := stepState ty sched (u + 1) st
         if st1.completeEvent then .finished st1 (u + 1)
         else if T < (u + 1) - st1.lastMessageTime then
           .finished { st1 with timeoutOccurred := true } (u + 1)
         else runLoop ty sched T fuel (u + 2) st1) from rfl]
    by_cases hcomp : (stepState ty sched (u + 1) st).completeEvent = true
    · have hby : completionBy ty sched (u + 1) = true := by rw [← sc]; exact hcomp
      simp only [hcomp, if_true]
      constructor
      · rintro ⟨st', e, hrun, htt⟩
        have hst' : st' = stepState ty sched (u + 1) st := by
          injection hrun with he _
          exact he.symm
        rw [hst'] at htt
        rw [st0, ht] at htt
        exact absurd htt (by simp)
      · rintro ⟨t, h1, _, hcb, _⟩
        have := completionBy_mono (u + 1) t h1 hby
        rw [this] at hcb
        exact absurd hcb (by simp)
    · have hcompf : (stepState ty sched (u + 1) st).completeEvent = false :=
        Bool.not_eq_true _ ▸ by simpa using hcomp
      have hbyf : completionBy ty sched (u + 1) = false := by rw [← sc]; exact hcompf
      simp only [hcompf, if_false, Bool.false_eq_true]
      by_cases hgap : T < (u + 1) - (stepState ty sched (u + 1) st).lastMessageTime
      · simp only [hgap, if_true]
        constructor
        · intro _
          refine ⟨u + 1, le_refl _, by omega, hbyf, ?_⟩
          rw [← sl]
          exact hgap
        · intro _
          exact ⟨_, u + 1, rfl, rfl⟩
      · simp only [hgap, if_false]
        have hih := ih (u + 1) (stepState ty sched (u + 1) st) (s0.trans h0)
          (st0.trans ht) sl sc
        rw [show u + 1 + 1 = u + 2 from rfl] at hih
        rw [hih]
        constructor
        · rintro ⟨t, h1, h2, h3, h4⟩
          exact ⟨t, by omega, by omega, h3, h4⟩
        · rintro ⟨t, h1, h2, h3, h4⟩
          by_cases he : t = u + 1
          · subst he
            rw [← sl] at h4
            exact absurd h4 hgap
          · exact ⟨t, by omega, by omega, h3, h4⟩

lemma runLoop_succ (ty : TerminalType) (sched : Nat → Option (List Char))
    (T fuel t : Nat) (st : ExecState) :
    runLoop ty sched T (fuel + 1) t st =
      if (stepState ty sched t st).completeEvent then
        .finished (stepState ty sched t st) t
      else if T < t - (stepState ty sched t st).lastMessageTime then
        .finished { (stepState ty sched t st) with timeoutOccurred := true } t
      else runLoop ty sched T fuel (t + 1) (stepState ty sched t st) := rfl

lemma isCommandComplete_generic_tick (n : Nat) :
    isCommandComplete .generic tickChunk n = false := rfl

lemma isCommandComplete_qcli_tick (n : Nat) :
    isCommandComplete .qcli tickChunk n = decide (120 < n) := rfl

lemma stepState_tick (ty : TerminalType) (t : Nat) (st : ExecState) :
    stepState ty tickSched t st =
      { st with
        lastMessageTime := t
        lastChunk := tickChunk
        completeEvent :=
          st.completeEvent || isCommandComplete ty tickChunk (t - st.startTime) } := rfl

/-- Under one (non-completing) payload per second, the generic-terminal wait
loop never exits: no completion indicator ever matches and the silence gap is
always zero at each poll. -/
lemma generic_tick_still (T : Nat) : ∀ (fuel t : Nat) (st : ExecState),
    st.completeEvent = false →
    (runLoop .generic tickSched T fuel t st).isStillRunning = true := by
  intro fuel
  induction fuel with
  | zero => intro t st _; rfl
  | succ fuel ih =>
    intro t st hc
    rw [runLoop_succ, stepState_tick]
    simp only [isCommandComplete_generic_tick, Bool.or_false, hc,
      Bool.false_eq_true, if_false]
    have hgap : ¬ (T < t - t) := by omega
    rw [if_neg hgap]
    exact ih (t + 1) _ rfl

/-- Under one non-completing payload per second, the Q CLI wait loop runs
until the 121st poll, where the 120-second hard ceiling sets the complete
event; the loop exits through the normal-completion branch with the timeout
flag still clear. -/
lemma qcli_tick_run (T : Nat) : ∀ (k t : Nat) (st : ExecState),
    t + k = 121 → st.startTime = 0 → st.completeEvent = false →
    st.timeoutOccurred = false →
    runLoop .qcli tickSched T (k + 1) t st =
      .finished { startTime := 0, lastMessageTime := 121,
                  lastChunk := tickChunk, completeEvent := true,
                  timeoutOccurred := false } 121 := by
  intro k
  induction k with
  | zero =>
    intro t st h121 h0 hc htm
    obtain ⟨sts, stl, stc, stce, stto⟩ := st
    simp only at h0 hc htm
    subst h0 hc htm
    have ht : t = 121 := by omega
    subst ht
    rw [runLoop_succ, stepState_tick, isCommandComplete_qcli_tick]
    norm_num
  | succ k ih =>
    intro t st h121 h0 hc htm
    obtain ⟨sts, stl, stc, stce, stto⟩ := st
    simp only at h0 hc htm
    subst h0 hc htm
    rw [runLoop_succ, stepState_tick, isCommandComplete_qcli_tick]
    have hle : ¬ (120 < t - 0) := by omega
    simp only [decide_eq_false hle, Bool.or_false, Bool.false_eq_true, if_false]
    have hgap : ¬ (T < t - t) := by omega
    rw [if_neg hgap]
    exact ih (t + 1) _ (by omega) rfl rfl rfl

lemma detect_thinking_of_search {raw : List Char} (last : QCLIResponseType)
    (h : thinkingSearch (cleanQcliList raw) = true) (hne : raw ≠ []) :
    detectMessageType raw last = .thinking := by
  simp [detectMessageType, hne, h]

lemma processQcli_of_detect_thinking {raw : List Char} (last : QCLIResponseType)
    (hdet : detectMessageType raw last = .thinking) :
    processQcliMessage raw last =
      (some { content := "", type := ChunkType.thinking,
              metadata := MetadataBuilder.forThinking raw.length "qcli" },
       .thinking) := by
  unfold processQcliMessage
  rw [hdet]
  rfl

/-- A payload-delivery schedule with a silence gap: payloads at seconds 1–3,
then nothing. -/
def gapSched : Nat → Option (List Char) := fun t => if t ≤ 3 then some ['x'] else none

/-! ### Claim theorems -/

/-- Claim C1: a call to `execute_command_stream` while the business state is
not `Idle` (in particular `Busy`) yields exactly one error chunk and
terminates: nothing is sent to the connection, the in-flight
`CommandExecution` is untouched, the business state is unchanged, and
streaming does not proceed. -/
theorem claim1_busy_reject :
    ∀ (isConn : Bool) (st : TerminalBusinessState) (inflight : Option String),
    st ≠ TerminalBusinessState.idle →
    (executeCommandStreamStart isConn st inflight).yielded.length = 1 ∧
    (∀ c ∈ (executeCommandStreamStart isConn st inflight).yielded,
        c.state = "error" ∧ c.errorMsg.isSome = true) ∧
    (executeCommandStreamStart isConn st inflight).newState = st ∧
    (executeCommandStreamStart isConn st inflight).inflight = inflight ∧
    (executeCommandStreamStart isConn st inflight).sentToConnection = [] ∧
    (executeCommandStreamStart isConn st inflight).proceeds = false := by
  intro isConn st inflight h
  have hce : canExecuteCommand isConn st = false := by
    simp [canExecuteCommand, h]
  unfold executeCommandStreamStart
  rw [hce]
  refine ⟨rfl, ?_, rfl, rfl, rfl, rfl⟩
  intro c hcmem
  have hc : c =
      { content := ""
        state := "error"
        isContent := false
        errorMsg := some "cannot execute command"
        final := false } := by
    simpa using hcmem
  subst hc
  exact ⟨rfl, rfl⟩

/-- Witness for C1 at a concrete busy state. -/
theorem claim1_busy_reject_witness :
    (executeCommandStreamStart true TerminalBusinessState.busy (some "ls")).yielded.length = 1 ∧
    (∀ c ∈ (executeCommandStreamStart true TerminalBusinessState.busy (some "ls")).yielded,
        c.state = "error" ∧ c.errorMsg.isSome = true) ∧
    (executeCommandStreamStart true TerminalBusinessState.busy (some "ls")).newState =
      TerminalBusinessState.busy ∧
    (executeCommandStreamStart true TerminalBusinessState.busy (some "ls")).inflight =
      some "ls" ∧
    (executeCommandStreamStart true TerminalBusinessState.busy (some "ls")).sentToConnection = [] ∧
    (executeCommandStreamStart true TerminalBusinessState.busy (some "ls")).proceeds = false :=
  claim1_busy_reject true TerminalBusinessState.busy (some "ls") (by decide)

/-- Counterexample for claim C2: under the Q CLI hard ceiling (one heartbeat
payload per second, no completion pattern ever matching, run until the
121st poll), the loop exits through the complete-event branch set by the
120-second ceiling, the timeout flag stays clear, and the final result is
reported with `success = true` — not `success = false` as the claim
states. -/
theorem claim2_counterexample :
    runLoop .qcli tickSched 5 121 1 initExec =
      .finished { startTime := 0, lastMessageTime := 121,
                  lastChunk := tickChunk, completeEvent := true,
                  timeoutOccurred := false } 121 ∧
    qcliDetectComplete tickChunk = false ∧
    (createCommandResult "demo"
      { startTime := 0, lastMessageTime := 121, lastChunk := tickChunk,
        completeEvent := true, timeoutOccurred := false } 121).success = true ∧
    120 < (createCommandResult "demo"
      { startTime := 0, lastMessageTime := 121, lastChunk := tickChunk,
        completeEvent := true, timeoutOccurred := false } 121).executionTime :=
  ⟨qcli_tick_run 5 120 1 initExec (by norm_num) rfl rfl rfl, by decide, rfl, by decide⟩

/-- Claim C2 (amended): the final result of a completed execution carries the
execution time and a success flag, and the success flag is true iff the
silence timeout did not fire; a completion forced by the 120-second hard
ceiling sets the complete event rather than the timeout flag and is therefore
reported with `success = true`. -/
theorem claim2_amended :
    (∀ (cmd : String) (st : ExecState) (now : Nat),
      (createCommandResult cmd st now).success = !st.timeoutOccurred ∧
      (createCommandResult cmd st now).executionTime = now - st.startTime ∧
      ((createCommandResult cmd st now).error.isSome = st.timeoutOccurred)) ∧
    (runLoop .qcli tickSched 5 121 1 initExec =
      .finished { startTime := 0, lastMessageTime := 121,
                  lastChunk := tickChunk, completeEvent := true,
                  timeoutOccurred := false } 121 ∧
     (createCommandResult "demo"
       { startTime := 0, lastMessageTime := 121, lastChunk := tickChunk,
         completeEvent := true, timeoutOccurred := false } 121).success = true) := by
  refine ⟨fun cmd st now => ⟨rfl, rfl, ?_⟩,
    qcli_tick_run 5 120 1 initExec (by norm_num) rfl rfl rfl, rfl⟩
  unfold createCommandResult
  by_cases h : st.timeoutOccurred <;> simp [h]

/-- Claim C3: (1) a command execution completes via the silence-timeout path
iff at some poll instant within the horizon the wall-clock gap since the last
(non-empty) payload exceeds the silence timeout while no payload has yet
signalled completion; (2) every non-empty inbound payload — content or not —
resets the activity timestamp to the current time. -/
theorem claim3_silence_timeout :
    (∀ (ty : TerminalType) (sched : Nat → Option (List Char)) (T fuel : Nat),
      (∃ st e, runLoop ty sched T fuel 1 initExec = .finished st e ∧
          st.timeoutOccurred = true) ↔
      (∃ t, 1 ≤ t ∧ t ≤ fuel ∧ completionBy ty sched t = false ∧
          T < t - lastArrival sched t)) ∧
    (∀ (ty : TerminalType) (st : ExecState) (raw : List Char) (now : Nat),
      raw ≠ [] → (handleRawActivity ty st raw now).lastMessageTime = now) := by
  constructor
  · intro ty sched T fuel
    have h := runLoop_timeout_iff_aux ty sched T fuel 0 initExec rfl rfl rfl rfl
    simpa using h
  · intro ty st raw now h
    simp [handleRawActivity, h]

/-- Witness for C3: with payloads only at seconds 1–3 and a 5-second silence
timeout, the run exits via the timeout path; and a concrete payload resets
the activity timestamp. -/
theorem claim3_silence_timeout_witness :
    (∃ st e, runLoop .generic gapSched 5 30 1 initExec = .finished st e ∧
        st.timeoutOccurred = true) ∧
    (handleRawActivity .generic initExec ['x'] 5).lastMessageTime = 5 :=
  ⟨(claim3_silence_timeout.1 .generic gapSched 5 30).mpr
      ⟨9, by norm_num, by norm_num, by decide, by decide⟩,
   claim3_silence_timeout.2 .generic initExec ['x'] 5 (by decide)⟩

/-- Counterexample for claim C4: for the generic terminal type there is no
hard ceiling — with one payload per second the run is still in progress
after 200 polls, far past the claimed 120-second ceiling. -/
theorem claim4_counterexample :
    (runLoop .generic tickSched 5 200 1 initExec).isStillRunning = true :=
  generic_tick_still 5 200 1 initExec rfl

/-- Claim C4 (amended): under continuous activity (one payload per second)
the silence timeout never fires for either terminal type; for the Q CLI type
the 120-second hard ceiling forces completion at the 121st poll (with the
timeout flag clear), while for the generic type there is no hard ceiling and
the command never completes. -/
theorem claim4_amended :
    (∀ (T fuel : Nat),
      (runLoop .generic tickSched T fuel 1 initExec).isStillRunning = true) ∧
    (∀ T : Nat,
      runLoop .qcli tickSched T 121 1 initExec =
        .finished { startTime := 0, lastMessageTime := 121,
                    lastChunk := tickChunk, completeEvent := true,
                    timeoutOccurred := false } 121) :=
  ⟨fun T fuel => generic_tick_still T fuel 1 initExec rfl,
   fun T => qcli_tick_run T 120 1 initExec (by norm_num) rfl rfl rfl⟩

/-- Claim C5 (code evaluation): the attributes the façade's operations
reference do not all resolve — `TerminalAPIClient.__init__` calls
`ConnectionManager.set_state_change_callback`, which `ConnectionManager` does
not define; `connection_manager.py` imports `TtydProtocolState` from
`websocket_client.py`, which does not define it; the executor calls
`QcliOutputFormatter.clean_and_detect_completion`, which the formatter does
not define; and `TerminalAPIClient.__init__` passes the keyword
`enable_formatting`, which `OutputProcessor.__init__` does not accept. -/
theorem claim5_missing_attributes :
    ("set_state_change_callback" ∈ apiClientInitConnectionManagerCalls ∧
     "set_state_change_callback" ∉ connectionManagerAttributes) ∧
    ("add_temp_listener" ∈ apiClientInitializeConnectionManagerCalls ∧
     "add_temp_listener" ∉ connectionManagerAttributes) ∧
    ("TtydProtocolState" ∈ connectionManagerWebsocketImports ∧
     "TtydProtocolState" ∉ websocketClientModuleNames) ∧
    ("clean_and_detect_completion" ∈ commandExecutorQcliFormatterCalls ∧
     "clean_and_detect_completion" ∉ qcliFormatterMethods) ∧
    ("enable_formatting" ∈ apiClientOutputProcessorKwargs ∧
     "enable_formatting" ∉ outputProcessorInitParams) := by
  decide

/-- Counterexample for claim C6: both cleaners discard a lone space — the
final `strip()` reduces `" "` to the empty string — and classifying `" "`
never yields a `Content` chunk (the Q CLI branch produces a non-content kind,
the generic branch drops the payload). -/
theorem claim6_counterexample :
    cleanQcliOutput " " = "" ∧
    ansiCleanerClean " " = "" ∧
    ((processRawMessageS " " "" .qcli .thinking false).1.map
      (fun ch => ch.type)) ≠ some ChunkType.content ∧
    (processRawMessageS " " "" .generic .thinking false).1 = none := by
  refine ⟨by decide, by decide, by decide, by decide⟩

/-- Claim C6 (amended): `clean(" ")` returns the empty string for both the
Q CLI cleaner and the websocket `ANSICleaner` (a lone space is discarded by
the final strip), and classifying the payload `" "` yields no `Content`
chunk: the Q CLI branch emits a content-less chunk of the previous kind
(`Thinking` in the initial context) and the generic branch emits nothing. -/
theorem claim6_amended :
    cleanQcliOutput " " = "" ∧
    ansiCleanerClean " " = "" ∧
    (processRawMessageS " " "" .qcli .thinking false).1 =
      some { content := "", type := ChunkType.thinking,
             metadata := MetadataBuilder.forThinking 1 "qcli" } ∧
    (processRawMessageS " " "" .generic .thinking false).1 = none := by
  refine ⟨by decide, by decide, by decide, by decide⟩

/-- Counterexample for claim C7: the effective thinking pattern requires the
literal text `Thinking...` after the spinner glyph, so the payload `"⠋"` —
which contains a spinner glyph — is not classified `Thinking`: in a
`streaming` context it retains the last kind and is surfaced as a `Content`
chunk whose content is the raw spinner glyph (not suppressed). -/
theorem claim7_counterexample :
    detectMessageTypeS "⠋" .streaming = .streaming ∧
    (processQcliMessageS "⠋" .streaming).1 =
      some { content := "⠋", type := ChunkType.content,
             metadata := MetadataBuilder.forContent 1 1 "qcli" } := by
  refine ⟨by decide, by decide⟩

/-- Claim C7 (amended): a payload matching the effective thinking pattern —
a spinner glyph followed (after optional whitespace) by `Thinking...` — is
classified `Thinking` for every `lastKind` context, and the resulting chunk
carries no content. -/
theorem claim7_amended :
    ∀ (raw : String) (last : QCLIResponseType),
    thinkingSearch (cleanQcliList raw.data) = true →
    detectMessageTypeS raw last = .thinking ∧
    (processQcliMessageS raw last).1 =
      some { content := "", type := ChunkType.thinking,
             metadata := MetadataBuilder.forThinking raw.length "qcli" } := by
  intro raw last h
  have hne : raw.data ≠ [] := by
    intro he
    rw [he] at h
    exact absurd h (by decide)
  have hdet : detectMessageType raw.data last = .thinking :=
    detect_thinking_of_search last h hne
  refine ⟨hdet, ?_⟩
  show (processQcliMessage raw.data last).1 = _
  rw [processQcli_of_detect_thinking last hdet]
  rfl

/-- Witness for C7 (amended) at a concrete spinner frame. -/
theorem claim7_amended_witness :
    detectMessageTypeS "⠋ Thinking..." .streaming = .thinking ∧
    (processQcliMessageS "⠋ Thinking..." .streaming).1 =
      some { content := "", type := ChunkType.thinking,
             metadata := MetadataBuilder.forThinking ("⠋ Thinking...".length) "qcli" } :=
  claim7_amended "⠋ Thinking..." .streaming (by decide)

/-- Claim C8: the payload `🛠️  Using tool: web_search_exa` classifies as
`ToolUse` with metadata tool name `web_search_exa` in every `lastKind`
context; a payload matching the tool marker whose name cannot be extracted
gets the sentinel `unknown_tool`; and in general, whenever all three
extraction patterns fail, `_extract_tool_name` returns the sentinel. -/
theorem claim8_tool_use :
    (∀ last, (processQcliMessageS "🛠️  Using tool: web_search_exa" last).1 =
      some { content := "", type := ChunkType.toolUse,
             metadata := MetadataBuilder.forToolUse "web_search_exa"
               ("🛠️  Using tool: web_search_exa".length) "qcli" }) ∧
    (∀ last, (processQcliMessageS "🛠️  Using tool: 123" last).1 =
      some { content := "", type := ChunkType.toolUse,
             metadata := MetadataBuilder.forToolUse "unknown_tool"
               ("🛠️  Using tool: 123".length) "qcli" }) ∧
    (∀ raw : List Char,
      searchToolPat ("using tool:".data) (cleanQcliList raw) = none →
      searchWrenchToolPat (cleanQcliList raw) = none →
      searchToolPat ("tool:".data) (cleanQcliList raw) = none →
      extractToolName raw = "unknown_tool") := by
  refine ⟨fun last => ?_, fun last => ?_, fun raw h1 h2 h3 => ?_⟩
  · cases last <;> decide
  · cases last <;> decide
  · simp [extractToolName, h1, h2, h3]

/-- Witness for C8 discharging the extraction-failure hypotheses at a
concrete non-extractable tool payload. -/
theorem claim8_tool_use_witness :
    extractToolName ("🛠️  Using tool: 123".data) = "unknown_tool" :=
  claim8_tool_use.2.2 ("🛠️  Using tool: 123".data) (by decide) (by decide) (by decide)

/-- Counterexample for claim C9: neither cleaner is idempotent on all
strings.  The Q CLI cleaner's trailing-`>` pass removes one prompt per run
(`">>"` cleans to `">"`, which cleans to `""`), and the generic cleaner's
`ubuntu@...$` prompt-residue pass can splice a fresh prompt out of the
removed text. -/
theorem claim9_counterexample :
    cleanQcliOutput (cleanQcliOutput ">>") ≠ cleanQcliOutput ">>" ∧
    cleanTerminalOutput (cleanTerminalOutput "ubuubuntu@h:x$ ntu@h:x$ ") ≠
      cleanTerminalOutput "ubuubuntu@h:x$ ntu@h:x$ " := by
  refine ⟨by decide, by decide⟩

/-- Claim C9 (amended): cleaning is idempotent on the repository's fixture
inputs (the spec's own phrasing), though not on every string — the
trailing-prompt removal passes of both cleaners can expose a new match on a
second run. -/
theorem claim9_amended :
    ∀ x ∈ cleanerFixtureInputs,
    cleanQcliOutput (cleanQcliOutput x) = cleanQcliOutput x ∧
    cleanTerminalOutput (cleanTerminalOutput x) = cleanTerminalOutput x := by
  decide

/-- Witness for C9 (amended) at a concrete fixture input. -/
theorem claim9_amended_witness :
    cleanQcliOutput (cleanQcliOutput "Hello World") = cleanQcliOutput "Hello World" ∧
    cleanTerminalOutput (cleanTerminalOutput "Hello World") =
      cleanTerminalOutput "Hello World" :=
  claim9_amended "Hello World" (by decide)

/-- Claim C10: generic-terminal message processing either returns no chunk or
returns a `Content` chunk whose content has at least one non-whitespace
character. -/
theorem claim10_generic_content :
    ∀ (raw cmd : String) (last : QCLIResponseType) (echoRemoved : Bool)
      (ch : StreamChunk),
    (processRawMessageS raw cmd .generic last echoRemoved).1 = some ch →
    ch.type = ChunkType.content ∧
    ch.content.data.any (fun c => !pyWs c) = true := by
  intro raw cmd last echoRemoved ch h
  unfold processRawMessageS processRawMessage at h
  by_cases hraw : raw.data = []
  · rw [if_pos hraw] at h
    exact absurd h (by simp)
  · rw [if_neg hraw] at h
    unfold processGenericMessage at h
    by_cases hs : pyStrip (cleanGenericContent raw.data cmd.data echoRemoved).1 = []
    · rw [if_pos hs] at h
      exact absurd h (by simp)
    · rw [if_neg hs] at h
      simp only [Option.some.injEq] at h
      have hty : ch.type = ChunkType.content := by rw [← h]
      refine ⟨hty, ?_⟩
      have hdata : ch.content.data =
          (cleanGenericContent raw.data cmd.data echoRemoved).1 := by rw [← h]
      rw [hdata]
      rw [pyStrip_eq_nil_iff] at hs
      rcases not_forall.mp hs with ⟨c, hc⟩
      rcases Classical.em (c ∈ (cleanGenericContent raw.data cmd.data echoRemoved).1) with hm | hm
      · have hws : pyWs c = false := by
          by_cases hw : pyWs c = true
          · exact absurd (fun _ => hw) hc
          · exact Bool.not_eq_true _ ▸ (by simpa using hw)
        rw [List.any_eq_true]
        exact ⟨c, hm, by rw [hws]; rfl⟩
      · exact absurd (fun hmm => absurd hmm hm) hc

/-- Witness for C10 at a concrete generic payload. -/
theorem claim10_generic_content_witness :
    ({ content := "hello", type := ChunkType.content,
       metadata := MetadataBuilder.forContent 5 5 "generic" } : StreamChunk).type =
      ChunkType.content ∧
    ({ content := "hello", type := ChunkType.content,
       metadata := MetadataBuilder.forContent 5 5 "generic" } : StreamChunk).content.data.any
      (fun c => !pyWs c) = true :=
  claim10_generic_content "hello" "" .thinking false
    { content := "hello", type := ChunkType.content,
      metadata := MetadataBuilder.forContent 5 5 "generic" } (by decide)

end Qterm
